import Mathlib

/-!
Verification of the dbgate MySQL proxy policy core.

This file gives a shallow embedding, in Lean 4, of the pure decision
logic of the dbgate proxy:

* `ip_in_cidr` and its helper parsers (src/policy/policy_engine.cpp),
* the policy evaluator `evaluate` / `evaluate_error`,
* the SQL classifier `sqlParse` with its multi-statement scanner
  (src/parser/sql_parser.cpp),
* the injection detector (src/parser/injection_detector.cpp),
* the MySQL wire codec `MysqlPacket.parse` / `serialize`
  (src/protocol/mysql_packet.cpp),
* the command extractor (src/protocol/command.cpp),
* the handshake state machine and the capability-stripping rewrites
  (src/protocol/handshake.cpp).

External effects that the C++ code delegates to libraries (the ECMAScript
regex engine, the wall clock / time zone database) are modelled as explicit
oracle parameters; every theorem quantifies over all oracles, so nothing
proved here depends on a particular regex or clock behaviour.

C++ `unsigned char` bytes are modelled as `Nat` with explicit masking
(`&&& 0xFF`, `% 256`) where the width matters.
-/

/-! ## Character and string helpers (C locale semantics) -/

/-- C locale `isspace`: space, tab, newline, vertical tab, form feed,
carriage return. Used by `trim` in sql_parser.cpp. -/
def isCppSpace (c : Char) : Bool :=
  c = ' ' || c = '\t' || c = '\n' || c = '\x0b' || c = '\x0c' || c = '\r'

/-- C locale `tolower` on an ASCII byte. -/
def asciiLower (c : Char) : Char :=
  if 'A' ≤ c && c ≤ 'Z' then Char.ofNat (c.toNat + 32) else c

/-- C locale `toupper` on an ASCII byte (sql_parser.cpp `to_upper`). -/
def asciiUpper (c : Char) : Char :=
  if 'a' ≤ c && c ≤ 'z' then Char.ofNat (c.toNat - 32) else c

/-- Case-insensitive string comparison, policy_engine.cpp `iequals`:
equal sizes and element-wise `tolower` equality. -/
def iequals (a b : String) : Bool :=
  a.data.length == b.data.length &&
    (a.data.zip b.data).all fun p => asciiLower p.1 == asciiLower p.2

/-- `trim` from sql_parser.cpp: strip leading and trailing C whitespace. -/
def cppTrim (cs : List Char) : List Char :=
  ((cs.dropWhile isCppSpace).reverse.dropWhile isCppSpace).reverse

/-- Uppercase a character list (sql_parser.cpp `to_upper`). -/
def toUpperL (cs : List Char) : List Char := cs.map asciiUpper

/-! ## `std::stoi` model

`std::stoi(s, &idx)` skips leading whitespace, consumes an optional single
sign and then one or more decimal digits; `idx` is the number of characters
consumed.  No digits means an exception, which every caller in
policy_engine.cpp catches and turns into a parse failure, so the model
returns `none` in that case.  Overflow also raises in C++; the model returns
the exact integer instead, which callers reject anyway through their range
checks (every accepted range is a subset of `int`), so the observable
behaviour is identical. -/

/-- Decimal value of a digit run. -/
def digitsVal (ds : List Char) : Nat :=
  ds.foldl (fun acc c => acc * 10 + (c.toNat - 48)) 0

/-- `std::stoi` with out-parameter `idx`: returns `(value, idx)`, or `none`
when no digits are found (C++ throws `invalid_argument`). -/
def cppStoi (cs : List Char) : Option (Int × Nat) :=
  let ws := (cs.takeWhile isCppSpace).length
  let afterWs := cs.drop ws
  let signLen : Nat :=
    match afterWs with
    | '+' :: _ => 1
    | '-' :: _ => 1
    | _ => 0
  let neg : Bool :=
    match afterWs with
    | '-' :: _ => true
    | _ => false
  let ds := (afterWs.drop signLen).takeWhile Char.isDigit
  if ds.isEmpty then none
  else
    let v : Int := Int.ofNat (digitsVal ds)
    some (if neg then -v else v, ws + signLen + ds.length)

/-! ## `inet_pton(AF_INET, …)` model

Strict dotted-decimal IPv4 parsing: exactly four octets, each a decimal
run with value ≤ 255 and no leading zero, separated by single dots, and no
other character anywhere (an IPv6 literal therefore fails).  The result is
the address as a single `Nat` in big-endian octet order, the same order in
which the C code stores and compares `s_addr`; since both sides of the
comparison in `ip_in_cidr` use the same byte order, comparing the
big-endian values is byte-for-byte the comparison the C code performs. -/

def pton4Loop : List Char → Bool → Nat → Nat → List Nat → Option (Nat × List Nat)
  | [], _, octets, cur, acc =>
    if octets < 4 then none else some (cur, acc)
  | c :: rest, saw, octets, cur, acc =>
    if c.isDigit then
      let nv := cur * 10 + (c.toNat - 48)
      if saw && cur == 0 then none
      else if nv > 255 then none
      else if !saw && octets + 1 > 4 then none
      else pton4Loop rest true (if saw then octets else octets + 1) nv acc
    else if c = '.' && saw then
      if octets == 4 then none
      else pton4Loop rest false octets 0 (acc ++ [cur])
    else none

/-- `inet_pton(AF_INET, s)`, returning the 32-bit address in big-endian
octet order, or `none` on any parse failure. -/
def inetPton4 (s : String) : Option Nat :=
  match pton4Loop s.data false 0 0 [] with
  | none => none
  | some (cur, acc) =>
    match acc ++ [cur] with
    | [a, b, c, d] => some (((a * 256 + b) * 256 + c) * 256 + d)
    | _ => none

/-! ## `ip_in_cidr` (policy_engine.cpp) -/

/-- The network mask for a prefix length `p` (1 ≤ p ≤ 32):
`~0u << (32 - p)` as a 32-bit value; `p = 0` maps to mask `0` (all-match).
The C code stores the mask with `htonl`; as explained above the byte
order cancels because both compared values use the same order. -/
def cidrMask (p : Nat) : Nat :=
  if p == 0 then 0 else (0xFFFFFFFF <<< (32 - p)) &&& 0xFFFFFFFF

/-- `ip_in_cidr(ip, cidr)` from policy_engine.cpp: split the CIDR at the
first `/`, parse the prefix with `std::stoi` (requiring full consumption
and `0 ≤ p ≤ 32`), parse both addresses with `inet_pton(AF_INET, …)`, and
compare the masked addresses.  Every failure returns `false` (fail-close). -/
def ip_in_cidr (ip cidr : String) : Bool :=
  match cidr.data.findIdx? (· = '/') with
  | none => false
  | some slashPos =>
    let networkStr : List Char := cidr.data.take slashPos
    let prefixStr : List Char := cidr.data.drop (slashPos + 1)
    match cppStoi prefixStr with
    | none => false
    | some (v, idx) =>
      if idx ≠ prefixStr.length || v < 0 || v > 32 then false
      else
        match inetPton4 ip with
        | none => false
        | some ipInt =>
          match inetPton4 (String.mk networkStr) with
          | none => false
          | some netInt =>
            let mask := cidrMask v.toNat
            (ipInt &&& mask) == (netInt &&& mask)

/-! ## Time range parsing (policy_engine.cpp) -/

/-- `TimeRange` from policy_engine.cpp. -/
structure TimeRange where
  start_h : Int := 0
  start_m : Int := 0
  end_h : Int := 0
  end_m : Int := 0
deriving Repr, DecidableEq

/-- `parse_hhmm` lambda inside `parse_time_range`: split at the first `:`,
`std::stoi` both sides (any trailing garbage after the digits is ignored,
as in the C code, which never checks `idx` here), then range-check. -/
def parseHhmm (cs : List Char) : Option (Int × Int) :=
  match cs.findIdx? (· = ':') with
  | none => none
  | some colonPos =>
    match cppStoi (cs.take colonPos) with
    | none => none
    | some (hour, _) =>
      match cppStoi (cs.drop (colonPos + 1)) with
      | none => none
      | some (minute, _) =>
        if 0 ≤ hour && hour ≤ 23 && 0 ≤ minute && minute ≤ 59 then
          some (hour, minute)
        else none

/-- `parse_time_range` from policy_engine.cpp: requires length ≥ 7 and a
`-` at index ≥ 1 separating two `HH:MM` fields. -/
def parse_time_range (rangeStr : String) : Option TimeRange :=
  let cs := rangeStr.data
  if cs.length < 7 then none
  else
    match (cs.drop 1).findIdx? (· = '-') with
    | none => none
    | some i =>
      let dashPos := i + 1
      match parseHhmm (cs.take dashPos) with
      | none => none
      | some (sh, sm) =>
        match parseHhmm (cs.drop (dashPos + 1)) with
        | none => none
        | some (eh, em) => some ⟨sh, sm, eh, em⟩

/-! ## Policy data model (rule.hpp, policy_engine.hpp, sql_parser.hpp) -/

/-- `SqlCommand` from sql_parser.hpp. -/
inductive SqlCommand where
  | kSelect | kInsert | kUpdate | kDelete | kDrop | kTruncate
  | kAlter | kCreate | kCall | kPrepare | kExecute | kUnknown
deriving Repr, DecidableEq

/-- `ParsedQuery` from sql_parser.hpp. -/
structure ParsedQuery where
  command : SqlCommand := .kUnknown
  tables : List String := []
  raw_sql : String := ""
  has_where_clause : Bool := false
deriving Repr, DecidableEq

/-- `SessionContext` from common/types.hpp (the time point is irrelevant to
every claim and is omitted; it is never read by the evaluator). -/
structure SessionContext where
  session_id : Nat := 0
  client_ip : String := ""
  client_port : Nat := 0
  db_user : String := ""
  db_name : String := ""
  handshake_done : Bool := false
deriving Repr, DecidableEq

/-- `ParseErrorCode` from common/types.hpp. -/
inductive ParseErrorCode where
  | kMalformedPacket | kInvalidSql | kUnsupportedCommand | kInternalError
deriving Repr, DecidableEq

/-- `ParseError` from common/types.hpp. -/
structure ParseError where
  code : ParseErrorCode := .kInternalError
  message : String := ""
  context : String := ""
deriving Repr, DecidableEq

/-- `TimeRestriction` from rule.hpp. -/
structure TimeRestriction where
  allow_range : String := "09:00-18:00"
  timezone : String := "UTC"
deriving Repr, DecidableEq

/-- `AccessRule` from rule.hpp. -/
structure AccessRule where
  user : String := ""
  source_ip_cidr : String := ""
  allowed_tables : List String := ["*"]
  allowed_operations : List String := []
  blocked_operations : List String := []
  time_restriction : Option TimeRestriction := none
deriving Repr, DecidableEq

/-- `SqlRule` from rule.hpp. -/
structure SqlRule where
  block_statements : List String := []
  block_patterns : List String := []
deriving Repr, DecidableEq

/-- `ProcedureControl` from rule.hpp. -/
structure ProcedureControl where
  mode : String := "whitelist"
  whitelist : List String := []
  block_dynamic_sql : Bool := true
  block_create_alter : Bool := true
deriving Repr, DecidableEq

/-- `DataProtection` from rule.hpp. -/
structure DataProtection where
  max_result_rows : Nat := 0
  block_schema_access : Bool := true
deriving Repr, DecidableEq

/-- `GlobalConfig` from rule.hpp. -/
structure GlobalConfig where
  log_level : String := "info"
  log_format : String := "json"
  max_connections : Nat := 1000
  connection_timeout_sec : Nat := 30
deriving Repr, DecidableEq

/-- `PolicyConfig` from rule.hpp. -/
structure PolicyConfig where
  global : GlobalConfig := {}
  access_control : List AccessRule := []
  sql_rules : SqlRule := {}
  procedure_control : ProcedureControl := {}
  data_protection : DataProtection := {}
deriving Repr, DecidableEq

/-- `PolicyAction` from policy_engine.hpp. -/
inductive PolicyAction where
  | kAllow | kBlock | kLog
deriving Repr, DecidableEq

/-- `PolicyResult` from policy_engine.hpp (default action is `kBlock`). -/
structure PolicyResult where
  action : PolicyAction := .kBlock
  matched_rule : String := ""
  reason : String := ""
deriving Repr, DecidableEq

/-- Oracles for the two effects `evaluate` delegates to libraries:
`regexValid p` tells whether `std::regex(p, icase|ECMAScript)` compiles,
`regexMatches p s` the outcome of `std::regex_search(s, re)` for a pattern
that compiled, and `withinTime r tz` the outcome of
`is_within_time_range(r, tz)`, which reads the wall clock and the time-zone
database.  Every theorem below holds for all oracles. -/
structure PolicyEnv where
  regexValid : String → Bool
  regexMatches : String → String → Bool
  withinTime : TimeRange → String → Bool

/-- `command_to_string` from policy_engine.cpp. -/
def command_to_string : SqlCommand → String
  | .kSelect => "SELECT"
  | .kInsert => "INSERT"
  | .kUpdate => "UPDATE"
  | .kDelete => "DELETE"
  | .kDrop => "DROP"
  | .kTruncate => "TRUNCATE"
  | .kAlter => "ALTER"
  | .kCreate => "CREATE"
  | .kCall => "CALL"
  | .kPrepare => "PREPARE"
  | .kExecute => "EXECUTE"
  | .kUnknown => "UNKNOWN"

/-- Step 5 of `PolicyEngine::evaluate`: the first access rule whose user
matches exactly or by `"*"` wildcard and whose CIDR is empty or contains
the client IP. -/
def findAccessRule (session : SessionContext) (rules : List AccessRule) :
    Option AccessRule :=
  rules.find? fun rule =>
    (rule.user == session.db_user || rule.user == "*") &&
      (rule.source_ip_cidr == "" || ip_in_cidr session.client_ip rule.source_ip_cidr)

/-- Steps 3 and 4 of `PolicyEngine::evaluate`: the first blocked statement,
then the first valid-and-matching blocked pattern, each an early return. -/
def sqlRulesCheck (env : PolicyEnv) (rules : SqlRule) (cmdStr rawSql : String) :
    Option PolicyResult :=
  match rules.block_statements.find? (fun stmt => iequals cmdStr stmt) with
  | some stmt =>
    some ⟨.kBlock, "block-statement", "SQL statement blocked: " ++ stmt⟩
  | none =>
    match rules.block_patterns.find?
        (fun pat => env.regexValid pat && env.regexMatches pat rawSql) with
    | some pat =>
      some ⟨.kBlock, "block-pattern", "SQL pattern blocked: " ++ pat⟩
    | none => none

/-- Step 7 of `PolicyEngine::evaluate` (time restriction), an early-return
block on parse failure or an out-of-window clock. -/
def timeRestrictionCheck (env : PolicyEnv) (rule : AccessRule)
    (session : SessionContext) : Option PolicyResult :=
  match rule.time_restriction with
  | none => none
  | some tr =>
    match parse_time_range tr.allow_range with
    | none =>
      some ⟨.kBlock, "time-restriction",
        "Invalid time restriction configuration for user '" ++ session.db_user ++ "'"⟩
    | some range =>
      if env.withinTime range tr.timezone then none
      else some ⟨.kBlock, "time-restriction", "Access outside allowed hours"⟩

/-- Step 8 of `PolicyEngine::evaluate` (allowed tables). -/
def tablesCheck (rule : AccessRule) (query : ParsedQuery) : Option PolicyResult :=
  let allTablesAllowed := rule.allowed_tables.any (fun t => t == "*")
  if !allTablesAllowed && !query.tables.isEmpty then
    match query.tables.find?
        (fun table => !(rule.allowed_tables.any (fun a => iequals table a))) with
    | some table =>
      some ⟨.kBlock, "table-denied", "Table access denied: " ++ table⟩
    | none => none
  else none

/-- Step 9 of `PolicyEngine::evaluate` (allowed operations). -/
def operationsCheck (rule : AccessRule) (cmdStr : String) : Option PolicyResult :=
  if !rule.allowed_operations.isEmpty then
    let allOpsAllowed := rule.allowed_operations.any (fun op => op == "*")
    if !allOpsAllowed then
      if !(rule.allowed_operations.any (fun op => iequals cmdStr op)) then
        some ⟨.kBlock, "operation-denied", "Operation not allowed: " ++ cmdStr⟩
      else none
    else none
  else none

/-- Step 10 of `PolicyEngine::evaluate` (procedure control): dynamic SQL for
`PREPARE`/`EXECUTE`; whitelist/blacklist on the first element of
`query.tables` (empty string when none) for `CALL`. -/
def procedureCheck (pc : ProcedureControl) (query : ParsedQuery)
    (cmdStr : String) : Option PolicyResult :=
  if query.command = .kCall || query.command = .kPrepare ||
      query.command = .kExecute then
    if query.command = .kPrepare || query.command = .kExecute then
      if pc.block_dynamic_sql then
        some ⟨.kBlock, "procedure-dynamic-sql",
          "Dynamic SQL (" ++ cmdStr ++ ") blocked by policy"⟩
      else none
    else
      let procName := (query.tables.head?).getD ""
      if pc.mode == "whitelist" then
        if !(pc.whitelist.any (fun wl => iequals procName wl)) then
          some ⟨.kBlock, "procedure-whitelist",
            "Procedure '" ++ procName ++ "' not in whitelist"⟩
        else none
      else if pc.mode == "blacklist" then
        if pc.whitelist.any (fun bl => iequals procName bl) then
          some ⟨.kBlock, "procedure-blacklist",
            "Procedure '" ++ procName ++ "' is blacklisted"⟩
        else none
      else none
  else none

/-- The `kCreate`/`kAlter` block after step 10 (`block_create_alter`). -/
def createAlterCheck (pc : ProcedureControl) (query : ParsedQuery)
    (cmdStr : String) : Option PolicyResult :=
  if query.command = .kCreate || query.command = .kAlter then
    if pc.block_create_alter then
      some ⟨.kBlock, "procedure-create-alter",
        cmdStr ++ " blocked by procedure policy"⟩
    else none
  else none

/-- Step 11 of `PolicyEngine::evaluate` (schema access): any referenced
table case-insensitively equal to a protected schema name. -/
def schemaCheck (dp : DataProtection) (query : ParsedQuery) : Option PolicyResult :=
  if dp.block_schema_access then
    if query.tables.any (fun table =>
        ["information_schema", "mysql", "performance_schema", "sys"].any
          (fun schema => iequals table schema)) then
      some ⟨.kBlock, "schema-access", "Schema access blocked"⟩
    else none
  else none

/-- `PolicyEngine::evaluate` (policy_engine.cpp).  The configuration
snapshot loaded at entry is the `Option PolicyConfig` argument
(`none` models `config_ == nullptr`); the ordered early returns of the C++
function appear here as a chain of `Option PolicyResult` checks. -/
def evaluate (env : PolicyEnv) (config : Option PolicyConfig)
    (query : ParsedQuery) (session : SessionContext) : PolicyResult :=
  match config with
  | none => ⟨.kBlock, "no-config", "Policy config unavailable"⟩
  | some cfg =>
    if query.command = .kUnknown then
      ⟨.kBlock, "unknown-command", "Unknown SQL command blocked"⟩
    else
      let cmdStr := command_to_string query.command
      match sqlRulesCheck env cfg.sql_rules cmdStr query.raw_sql with
      | some r => r
      | none =>
        match findAccessRule session cfg.access_control with
        | none =>
          ⟨.kBlock, "no-access-rule", "No matching access rule for user/IP"⟩
        | some rule =>
          match rule.blocked_operations.find? (fun op => iequals cmdStr op) with
          | some blockedOp =>
            ⟨.kBlock, "blocked-operation",
              "Operation blocked for user '" ++ session.db_user ++ "': " ++ blockedOp⟩
          | none =>
            match timeRestrictionCheck env rule session with
            | some r => r
            | none =>
              match tablesCheck rule query with
              | some r => r
              | none =>
                match operationsCheck rule cmdStr with
                | some r => r
                | none =>
                  match procedureCheck cfg.procedure_control query cmdStr with
                  | some r => r
                  | none =>
                    match createAlterCheck cfg.procedure_control query cmdStr with
                    | some r => r
                    | none =>
                      match schemaCheck cfg.data_protection query with
                      | some r => r
                      | none =>
                        ⟨.kAllow, "access-rule:" ++ rule.user, "Access allowed"⟩

/-- `PolicyEngine::evaluate_error` (policy_engine.cpp): the fail-close entry
point for classifier failures.  The C++ body is `noexcept` with a catch-all
that still returns a Block, so the function is total and constant in its
decision. -/
def evaluate_error (error : ParseError) (_session : SessionContext) : PolicyResult :=
  ⟨.kBlock, "parse-error", "Parser error: " ++ error.message⟩

/-! ## SQL classifier (sql_parser.cpp) -/

/-- The inner scan of the block-comment branch of `remove_comments`:
starting just after an opening slash-star, consume up to and including the
closing star-slash; an unterminated comment stops one character before the
end (the C loop condition is `i + 1 < len`), leaving the final character
to be processed normally. -/
def skipBlock : List Char → List Char
  | [] => []
  | [c] => [c]
  | '*' :: '/' :: rest => rest
  | _ :: c2 :: rest => skipBlock (c2 :: rest)

/-- `remove_comments` from sql_parser.cpp: drop block comments (substituting
one space), and `--` / `#` line comments (up to but not including the
newline).  The C++ `while (i < len)` loop is embedded with an explicit
iteration bound (`fuel`): every iteration consumes at least one character,
so `fuel = cs.length` iterations always suffice and the `fuel = 0` default
is unreachable; structural recursion on `fuel` keeps the function
kernel-reducible. -/
def removeCommentsAux : Nat → List Char → List Char
  | 0, _ => []
  | _, [] => []
  | fuel + 1, '/' :: '*' :: rest => ' ' :: removeCommentsAux fuel (skipBlock rest)
  | fuel + 1, '-' :: '-' :: rest => removeCommentsAux fuel (rest.dropWhile (· ≠ '\n'))
  | fuel + 1, '#' :: rest => removeCommentsAux fuel (rest.dropWhile (· ≠ '\n'))
  | fuel + 1, c :: rest => c :: removeCommentsAux fuel rest

/-- `remove_comments` (sql_parser.cpp), with the iteration bound
instantiated at the input length. -/
def removeComments (cs : List Char) : List Char :=
  removeCommentsAux cs.length cs

/-- The six states of `has_semicolon_outside_string_or_comment`. -/
inductive ScanState where
  | kNormal | kSingleQuote | kDoubleQuote | kBlockComment | kLineComment | kHashComment
deriving Repr, DecidableEq

/-- The state machine of `has_semicolon_outside_string_or_comment`
(sql_parser.cpp): `true` exactly when a `;` is reached in `kNormal` state.
Backslash escapes and doubled quotes are handled inside quoted states;
two-character tokens consume two characters, as the C index arithmetic does. -/
def semiScan : ScanState → List Char → Bool
  | _, [] => false
  | .kNormal, '\'' :: rest => semiScan .kSingleQuote rest
  | .kNormal, '"' :: rest => semiScan .kDoubleQuote rest
  | .kNormal, '/' :: '*' :: rest => semiScan .kBlockComment rest
  | .kNormal, '-' :: '-' :: rest => semiScan .kLineComment rest
  | .kNormal, '#' :: rest => semiScan .kHashComment rest
  | .kNormal, ';' :: _ => true
  | .kNormal, _ :: rest => semiScan .kNormal rest
  | .kSingleQuote, '\\' :: _ :: rest => semiScan .kSingleQuote rest
  | .kSingleQuote, ['\\'] => false
  | .kSingleQuote, '\'' :: '\'' :: rest => semiScan .kSingleQuote rest
  | .kSingleQuote, '\'' :: rest => semiScan .kNormal rest
  | .kSingleQuote, _ :: rest => semiScan .kSingleQuote rest
  | .kDoubleQuote, '\\' :: _ :: rest => semiScan .kDoubleQuote rest
  | .kDoubleQuote, ['\\'] => false
  | .kDoubleQuote, '"' :: '"' :: rest => semiScan .kDoubleQuote rest
  | .kDoubleQuote, '"' :: rest => semiScan .kNormal rest
  | .kDoubleQuote, _ :: rest => semiScan .kDoubleQuote rest
  | .kBlockComment, '*' :: '/' :: rest => semiScan .kNormal rest
  | .kBlockComment, _ :: rest => semiScan .kBlockComment rest
  | .kLineComment, '\n' :: rest => semiScan .kNormal rest
  | .kLineComment, _ :: rest => semiScan .kLineComment rest
  | .kHashComment, '\n' :: rest => semiScan .kNormal rest
  | .kHashComment, _ :: rest => semiScan .kHashComment rest

/-- `has_semicolon_outside_string_or_comment` from sql_parser.cpp. -/
def has_semicolon_outside_string_or_comment (sql : String) : Bool :=
  semiScan .kNormal sql.data

/-- `extract_first_keyword` from sql_parser.cpp: trim, then the prefix up
to the first of space, tab, carriage return or newline. -/
def extract_first_keyword (cs : List Char) : List Char :=
  (cppTrim cs).takeWhile fun c => !(c = ' ' || c = '\t' || c = '\r' || c = '\n')

/-- `keyword_to_command` from sql_parser.cpp. -/
def keyword_to_command (kw : String) : SqlCommand :=
  match kw with
  | "SELECT" => .kSelect
  | "INSERT" => .kInsert
  | "UPDATE" => .kUpdate
  | "DELETE" => .kDelete
  | "DROP" => .kDrop
  | "TRUNCATE" => .kTruncate
  | "ALTER" => .kAlter
  | "CREATE" => .kCreate
  | "CALL" => .kCall
  | "PREPARE" => .kPrepare
  | "EXECUTE" => .kExecute
  | _ => .kUnknown

/-- Oracles for the two regex-based helpers of sql_parser.cpp:
`extractTables norm orig kw acc` models `extract_tables_for_keyword`
(ECMAScript regex search plus case-recovery), appending to the accumulated
table list; `hasWhere` models `has_where_keyword` (the word-boundary WHERE
regex).  No claim in this development depends on their outcome: for `CALL`,
`PREPARE`, `EXECUTE` and unknown commands the classifier never calls the
extractor at all, which is exactly the branch structure proved below. -/
structure ParserEnv where
  extractTables : String → String → String → List String → List String
  hasWhere : String → Bool

/-- `SqlParser::parse` from sql_parser.cpp: empty-input check,
multi-statement fail-close, comment stripping, uppercase normalisation,
first-keyword classification, per-command table extraction, WHERE check. -/
def sqlParse (env : ParserEnv) (sql : String) : Except ParseError ParsedQuery :=
  let trimmed := cppTrim sql.data
  if trimmed.isEmpty then
    .error ⟨.kInvalidSql, "Empty SQL input", sql⟩
  else if has_semicolon_outside_string_or_comment sql then
    .error ⟨.kInvalidSql,
      "Multi-statement SQL detected: semicolon outside string or comment", sql⟩
  else
    let noComments := removeComments sql.data
    let normalized := toUpperL noComments
    let normalizedTrimmed := cppTrim normalized
    if normalizedTrimmed.isEmpty then
      .error ⟨.kInvalidSql, "SQL is empty after comment removal", sql⟩
    else
      let firstKw := String.mk (extract_first_keyword normalizedTrimmed)
      let cmd := keyword_to_command firstKw
      let normalizedStr := String.mk normalizedTrimmed
      let tables : List String :=
        match cmd with
        | .kSelect | .kDelete =>
          env.extractTables normalizedStr sql "JOIN"
            (env.extractTables normalizedStr sql "FROM" [])
        | .kInsert => env.extractTables normalizedStr sql "INTO" []
        | .kUpdate =>
          env.extractTables normalizedStr sql "JOIN"
            (env.extractTables normalizedStr sql "UPDATE" [])
        | .kDrop | .kTruncate | .kAlter | .kCreate =>
          env.extractTables normalizedStr sql "TABLE" []
        | _ => []
      .ok ⟨cmd, tables, sql, env.hasWhere normalizedStr⟩

/-! ## Injection detector (injection_detector.cpp) -/

/-- `InjectionResult` from injection_detector.hpp. -/
structure InjectionResult where
  detected : Bool := false
  matched_pattern : String := ""
  reason : String := ""
deriving Repr, DecidableEq

/-- The detector state after construction: the compiled patterns that
survived (source text kept for reporting) and the fail-close flag. -/
structure InjectionDetector where
  compiled_patterns : List String := []
  fail_close_active : Bool := false
deriving Repr, DecidableEq

/-- The `InjectionDetector` constructor (injection_detector.cpp): compile
each pattern case-insensitively, drop the invalid ones, and set
`fail_close_active` exactly when no pattern survived. -/
def mkInjectionDetector (env : PolicyEnv) (patterns : List String) :
    InjectionDetector :=
  let compiled := patterns.filter env.regexValid
  ⟨compiled, compiled.isEmpty⟩

/-- `InjectionDetector::check` (injection_detector.cpp): constant
detected-result under fail-close, otherwise first matching pattern. -/
def injectionCheck (env : PolicyEnv) (d : InjectionDetector)
    (sql : String) : InjectionResult :=
  if d.fail_close_active then
    ⟨true, "", "no valid patterns loaded"⟩
  else
    match d.compiled_patterns.find? (fun p => env.regexMatches p sql) with
    | some p => ⟨true, p, "Matched injection pattern: " ++ p⟩
    | none => ⟨false, "", ""⟩

/-! ## MySQL wire codec (mysql_packet.cpp) -/

/-- `PacketType` from mysql_packet.hpp (the duplicate numeric values of the
C++ enum are irrelevant here; only the tags are used). -/
inductive PacketType where
  | kHandshake | kHandshakeResponse | kComQuery | kComQuit
  | kOk | kError | kEof | kUnknown
deriving Repr, DecidableEq

/-- `detect_packet_type` from mysql_packet.cpp: classify by the first
payload byte, with the EOF-vs-AuthSwitch length rule for `0xFE`. -/
def detect_packet_type (payload : List Nat) : PacketType :=
  match payload with
  | [] => .kUnknown
  | first :: _ =>
    if first = 0xFF then .kError
    else if first = 0xFE then
      if payload.length < 9 then .kEof else .kUnknown
    else if first = 0x0A then .kHandshake
    else if first = 0x03 then .kComQuery
    else if first = 0x01 then .kComQuit
    else if first = 0x00 then .kOk
    else .kUnknown

/-- `MysqlPacket` (mysql_packet.hpp): sequence id byte, payload bytes and
the derived type tag. -/
structure MysqlPacket where
  sequence_id : Nat := 0
  payload : List Nat := []
  type : PacketType := .kUnknown
deriving Repr, DecidableEq

/-- `MysqlPacket::parse` (mysql_packet.cpp): at least 4 header bytes,
3-byte little-endian payload length, at least `4 + length` bytes in total
(extra trailing bytes are tolerated and ignored), payload copied out. -/
def MysqlPacket.parse (data : List Nat) : Except ParseError MysqlPacket :=
  if data.length < 4 then
    .error ⟨.kMalformedPacket, "packet too short",
      "received " ++ toString data.length ++ " bytes, need at least 4"⟩
  else
    let length := data.getD 0 0 ||| (data.getD 1 0 <<< 8) ||| (data.getD 2 0 <<< 16)
    if data.length < 4 + length then
      .error ⟨.kMalformedPacket, "incomplete payload",
        "declared length=" ++ toString length ++ ", available=" ++
          toString (data.length - 4)⟩
    else
      let payload := (data.drop 4).take length
      .ok ⟨data.getD 3 0, payload, detect_packet_type payload⟩

/-- `MysqlPacket::serialize` (mysql_packet.cpp): 3-byte little-endian
length, sequence byte, payload; the empty buffer when the payload exceeds
`0xFFFFFF`. -/
def MysqlPacket.serialize (p : MysqlPacket) : List Nat :=
  let len := p.payload.length
  if len > 0xFFFFFF then []
  else
    (len &&& 0xFF) :: ((len >>> 8) &&& 0xFF) :: ((len >>> 16) &&& 0xFF) ::
      p.sequence_id :: p.payload

/-! ## Command extractor (command.cpp) -/

/-- `CommandType` from command.hpp. -/
inductive CommandType where
  | kComQuit | kComInitDb | kComQuery | kComFieldList | kComCreateDb
  | kComDropDb | kComRefresh | kComStatistics | kComProcessInfo
  | kComConnect | kComProcessKill | kComPing | kComStmtPrepare
  | kComStmtExecute | kComStmtClose | kComStmtReset | kComUnknown
deriving Repr, DecidableEq

/-- `CommandPacket` from command.hpp. -/
structure CommandPacket where
  command_type : CommandType := .kComUnknown
  query : String := ""
  sequence_id : Nat := 0
deriving Repr, DecidableEq

/-- `map_command_byte` from command.cpp. -/
def map_command_byte (b : Nat) : Option CommandType :=
  match b with
  | 0x01 => some .kComQuit
  | 0x02 => some .kComInitDb
  | 0x03 => some .kComQuery
  | 0x04 => some .kComFieldList
  | 0x05 => some .kComCreateDb
  | 0x06 => some .kComDropDb
  | 0x07 => some .kComRefresh
  | 0x09 => some .kComStatistics
  | 0x0A => some .kComProcessInfo
  | 0x0B => some .kComConnect
  | 0x0C => some .kComProcessKill
  | 0x0E => some .kComPing
  | 0x16 => some .kComStmtPrepare
  | 0x17 => some .kComStmtExecute
  | 0x19 => some .kComStmtClose
  | 0x1A => some .kComStmtReset
  | _ => none

/-- One uppercase hexadecimal digit. -/
def toHexDigit (n : Nat) : Char :=
  if n < 10 then Char.ofNat (48 + n) else Char.ofNat (55 + n)

/-- `std::format("{:02X}", b)` for a byte. -/
def hexByte (b : Nat) : String :=
  String.mk [toHexDigit ((b >>> 4) &&& 0xF), toHexDigit (b &&& 0xF)]

/-- `extract_command` from command.cpp: non-empty payload, first byte
mapped through `map_command_byte`; for `COM_QUERY` with more than one
payload byte the rest becomes the SQL string, otherwise `query` stays
empty. -/
def extract_command (packet : MysqlPacket) : Except ParseError CommandPacket :=
  match packet.payload with
  | [] => .error ⟨.kMalformedPacket, "empty payload", ""⟩
  | cmdByte :: rest =>
    match map_command_byte cmdByte with
    | none =>
      .error ⟨.kUnsupportedCommand,
        "unknown command byte: 0x" ++ hexByte cmdByte, ""⟩
    | some ct =>
      let query :=
        if ct = .kComQuery && packet.payload.length > 1 then
          String.mk (rest.map Char.ofNat)
        else ""
      .ok ⟨ct, query, packet.sequence_id⟩

/-! ## Handshake state machine (handshake.cpp, handshake_detail.hpp) -/

/-- `AuthResponseType` from handshake_detail.hpp. -/
inductive AuthResponseType where
  | kOk | kError | kEof | kAuthSwitch | kAuthMoreData | kUnknown
deriving Repr, DecidableEq

/-- `HandshakeState` from handshake_detail.hpp. -/
inductive HandshakeState where
  | kWaitServerGreeting | kWaitClientResponse | kWaitServerAuth
  | kWaitClientAuthSwitch | kWaitServerAuthSwitch
  | kWaitClientMoreData | kWaitServerMoreData
  | kDone | kFailed
deriving Repr, DecidableEq

/-- `HandshakeAction` from handshake_detail.hpp. -/
inductive HandshakeAction where
  | kRelayToClient | kRelayToServer | kComplete | kTerminate | kTerminateNoRelay
deriving Repr, DecidableEq

/-- `HandshakeTransition` from handshake_detail.hpp. -/
structure HandshakeTransition where
  next_state : HandshakeState := .kFailed
  action : HandshakeAction := .kTerminate
deriving Repr, DecidableEq

/-- The numeric value of a `HandshakeState` in the C++ enum, used only in
error-context strings (`std::format("state={}", …)`). -/
def handshakeStateIndex : HandshakeState → Nat
  | .kWaitServerGreeting => 0
  | .kWaitClientResponse => 1
  | .kWaitServerAuth => 2
  | .kWaitClientAuthSwitch => 3
  | .kWaitServerAuthSwitch => 4
  | .kWaitClientMoreData => 5
  | .kWaitServerMoreData => 6
  | .kDone => 7
  | .kFailed => 8

/-- `detail::classify_auth_response` from handshake.cpp. -/
def classify_auth_response (payload : List Nat) : AuthResponseType :=
  match payload with
  | [] => .kUnknown
  | first :: _ =>
    if first = 0x00 then .kOk
    else if first = 0xFF then .kError
    else if first = 0xFE then
      if payload.length < 9 then .kEof else .kAuthSwitch
    else if first = 0x01 then .kAuthMoreData
    else .kUnknown

/-- `kMaxRoundTrips` from handshake.cpp. -/
def kMaxRoundTrips : Int := 10

/-- `detail::process_handshake_packet` from handshake.cpp: the pure
handshake transition function. -/
def process_handshake_packet (current_state : HandshakeState)
    (payload : List Nat) (round_trips : Int) :
    Except ParseError HandshakeTransition :=
  match current_state with
  | .kWaitServerGreeting =>
    if payload.isEmpty then
      .error ⟨.kMalformedPacket, "empty server greeting payload", ""⟩
    else .ok ⟨.kWaitClientResponse, .kRelayToClient⟩
  | .kWaitClientResponse => .ok ⟨.kWaitServerAuth, .kRelayToServer⟩
  | .kWaitServerAuth =>
    match classify_auth_response payload with
    | .kOk => .ok ⟨.kDone, .kComplete⟩
    | .kError => .ok ⟨.kFailed, .kTerminate⟩
    | .kEof => .ok ⟨.kFailed, .kTerminate⟩
    | .kAuthSwitch => .ok ⟨.kWaitClientAuthSwitch, .kRelayToClient⟩
    | .kAuthMoreData =>
      let fastAuthOk := payload.length ≥ 2 && payload.getD 1 0 == 0x03
      .ok ⟨if fastAuthOk then .kWaitServerMoreData else .kWaitClientMoreData,
        .kRelayToClient⟩
    | .kUnknown => .ok ⟨.kFailed, .kTerminateNoRelay⟩
  | .kWaitClientAuthSwitch => .ok ⟨.kWaitServerAuthSwitch, .kRelayToServer⟩
  | .kWaitServerAuthSwitch =>
    match classify_auth_response payload with
    | .kOk => .ok ⟨.kDone, .kComplete⟩
    | .kError => .ok ⟨.kFailed, .kTerminate⟩
    | .kEof => .ok ⟨.kFailed, .kTerminate⟩
    | .kAuthMoreData =>
      if round_trips ≥ kMaxRoundTrips then
        .error ⟨.kMalformedPacket, "handshake auth loop exceeded max round trips",
          "round_trips=" ++ toString round_trips⟩
      else .ok ⟨.kWaitClientMoreData, .kRelayToClient⟩
    | .kAuthSwitch =>
      .error ⟨.kMalformedPacket, "unexpected AuthSwitchRequest after AuthSwitch", ""⟩
    | .kUnknown => .ok ⟨.kFailed, .kTerminateNoRelay⟩
  | .kWaitClientMoreData => .ok ⟨.kWaitServerMoreData, .kRelayToServer⟩
  | .kWaitServerMoreData =>
    match classify_auth_response payload with
    | .kOk => .ok ⟨.kDone, .kComplete⟩
    | .kError => .ok ⟨.kFailed, .kTerminate⟩
    | .kEof => .ok ⟨.kFailed, .kTerminate⟩
    | .kAuthMoreData =>
      if round_trips ≥ kMaxRoundTrips then
        .error ⟨.kMalformedPacket, "handshake auth loop exceeded max round trips",
          "round_trips=" ++ toString round_trips⟩
      else
        let fastAuthOk := payload.length ≥ 2 && payload.getD 1 0 == 0x03
        .ok ⟨if fastAuthOk then .kWaitServerMoreData else .kWaitClientMoreData,
          .kRelayToClient⟩
    | .kAuthSwitch =>
      .error ⟨.kMalformedPacket, "unexpected AuthSwitchRequest after AuthMoreData", ""⟩
    | .kUnknown =>
      if round_trips ≥ kMaxRoundTrips then
        .error ⟨.kMalformedPacket, "handshake auth loop exceeded max round trips",
          "round_trips=" ++ toString round_trips⟩
      else .ok ⟨.kWaitClientMoreData, .kRelayToClient⟩
  | .kDone =>
    .error ⟨.kInternalError, "process_handshake_packet called in terminal state",
      "state=" ++ toString (handshakeStateIndex .kDone)⟩
  | .kFailed =>
    .error ⟨.kInternalError, "process_handshake_packet called in terminal state",
      "state=" ++ toString (handshakeStateIndex .kFailed)⟩

/-! ## Capability stripping (handshake.cpp) -/

/-- The NUL-terminator scan inside `strip_unsupported_capabilities`:
the first index `≥ start` holding `0x00`, or `none` if the scan runs off
the end. -/
def findNulFrom (payload : List Nat) (start : Nat) : Option Nat :=
  match (payload.drop start).findIdx? (· = 0) with
  | some i => some (start + i)
  | none => none

/-- The Handshake-v10 layout walk of `strip_unsupported_capabilities`:
needs at least 2 payload bytes, a NUL terminating the server version
string, and `pos + 7 ≤ payload.length` where `pos` (the returned offset of
`capability_flags_1` in the payload) is the NUL position + 1 + 13 bytes of
connection id, auth-plugin data and filler.  `none` means the layout could
not be walked and the caller forwards the original bytes. -/
def walkGreeting (payload : List Nat) : Option Nat :=
  if payload.length < 2 then none
  else
    match findNulFrom payload 1 with
    | none => none
    | some p =>
      let pos := p + 1 + 13
      if pos + 7 > payload.length then none else some pos

/-- `strip_unsupported_capabilities` from handshake.cpp: clear bit 3
(`CLIENT_SSL`, bit 11 of the 16-bit field) in the high byte of
`capability_flags_1` and bits 0 and 3 (`CLIENT_DEPRECATE_EOF` bit 24 and
`CLIENT_QUERY_ATTRIBUTES` bit 27 of the full 32-bit flags) in the high
byte of `capability_flags_2`, leaving everything else untouched; on any
layout-walk failure return the serialized packet unchanged. -/
def strip_unsupported_capabilities (pkt : MysqlPacket) : List Nat :=
  let bytes := pkt.serialize
  match walkGreeting pkt.payload with
  | none => bytes
  | some pos =>
    let cap1off := 4 + pos
    let cap2off := cap1off + 5
    let b1 := bytes.set (cap1off + 1) (bytes.getD (cap1off + 1) 0 &&& 0xF7)
    if cap2off + 1 < b1.length then
      b1.set (cap2off + 1) (b1.getD (cap2off + 1) 0 &&& 0xF6)
    else b1

/-- `kUnsupportedMask` from `strip_unsupported_client_capabilities`:
`CLIENT_SSL` (bit 11) | `CLIENT_DEPRECATE_EOF` (bit 24) |
`CLIENT_QUERY_ATTRIBUTES` (bit 27). -/
def kUnsupportedMask : Nat := 0x00000800 ||| 0x01000000 ||| 0x08000000

/-- `strip_unsupported_client_capabilities` from handshake.cpp: read the
4-byte little-endian capability flags at payload offset 0, clear
`kUnsupportedMask` (`~` on `uint32_t` modelled as xor with `0xFFFFFFFF`),
and write the four bytes back; packets with fewer than 4 payload bytes are
returned unchanged. -/
def strip_unsupported_client_capabilities (pkt : MysqlPacket) : List Nat :=
  let bytes := pkt.serialize
  if pkt.payload.length < 4 || bytes.length < 8 then bytes
  else
    let cap := bytes.getD 4 0 ||| (bytes.getD 5 0 <<< 8) |||
      (bytes.getD 6 0 <<< 16) ||| (bytes.getD 7 0 <<< 24)
    let capStripped := cap &&& (0xFFFFFFFF ^^^ kUnsupportedMask)
    ((((bytes.set 4 (capStripped &&& 0xFF)).set 5
        ((capStripped >>> 8) &&& 0xFF)).set 6
        ((capStripped >>> 16) &&& 0xFF)).set 7
        ((capStripped >>> 24) &&& 0xFF))

/-! ## Concrete fixtures used to evaluate the theorems on closed inputs -/

/-- A parser oracle whose table extractor adds nothing and whose WHERE
check is false; the classifier branches exercised below never invoke it. -/
def noTablesEnv : ParserEnv := ⟨fun _ _ _ acc => acc, fun _ => false⟩

/-- A policy oracle on which no regex compiles. -/
def allInvalidEnv : PolicyEnv := ⟨fun _ => false, fun _ _ => false, fun _ _ => false⟩

/-- A policy oracle on which every regex compiles, nothing matches, and the
clock is always inside every window. -/
def quietEnv : PolicyEnv := ⟨fun _ => true, fun _ _ => false, fun _ _ => true⟩

/-- Test policy from the end-to-end scenarios of the specification. -/
def scenarioConfig : PolicyConfig :=
  { access_control :=
      [{ user := "testuser", source_ip_cidr := "192.168.1.0/24",
         allowed_tables := ["users"], allowed_operations := ["SELECT"] }],
    sql_rules :=
      { block_statements := ["DROP", "TRUNCATE"],
        block_patterns := ["UNION\\s+SELECT"] } }

/-- Test session from the end-to-end scenarios of the specification. -/
def scenarioSession : SessionContext :=
  { db_user := "testuser", client_ip := "192.168.1.50" }

/-- Test query from scenario 1 of the specification. -/
def scenarioQuery : ParsedQuery :=
  ⟨.kSelect, ["users"], "SELECT id FROM users", false⟩

/-- A server greeting packet: protocol 10, one-byte version string, 13
bytes of connection id / auth data / filler, then all-ones capability,
charset, status and capability-2 fields and a trailing byte. -/
def greetingFixture : MysqlPacket :=
  ⟨0, [0x0A, 0x35, 0x00] ++ List.replicate 13 0x11 ++
    [0xFF, 0xFF, 0x21, 0x02, 0x00, 0xFF, 0xFF, 0x00], .kHandshake⟩

/-- A client HandshakeResponse packet with all-ones capability flags. -/
def responseFixture : MysqlPacket :=
  ⟨1, [0xFF, 0xFF, 0xFF, 0xFF, 0x07, 0x07], .kHandshakeResponse⟩

/-! ## Shared arithmetic and list lemmas -/

theorem lor_shl_eq_add (a b k : Nat) (ha : a < 2 ^ k) :
    a ||| b <<< k = a + b * 2 ^ k := by
  have h : a + b * 2 ^ k = 2 ^ k * b + a := by ring
  rw [h]
  refine Nat.eq_of_testBit_eq fun j => ?_
  rw [Nat.testBit_or, Nat.testBit_shiftLeft,
    Nat.testBit_mul_pow_two_add b ha j]
  by_cases hj : j < k
  · have : ¬ j ≥ k := by omega
    simp [hj, this]
  · have hge : j ≥ k := by omega
    have hlt : a < 2 ^ j := lt_of_lt_of_le ha (Nat.pow_le_pow_right (by omega) hge)
    simp [hj, hge, Nat.testBit_lt_two_pow hlt]

theorem and_255_eq_mod (a : Nat) : a &&& 255 = a % 256 := by
  have h := Nat.and_pow_two_sub_one_eq_mod a 8
  norm_num at h
  exact h

theorem getD_set_ne (l : List Nat) (i k v : Nat) (h : i ≠ k) :
    (l.set i v).getD k 0 = l.getD k 0 := by
  rw [List.getD_eq_getElem?_getD, List.getD_eq_getElem?_getD, List.getElem?_set]
  simp [h]

theorem getD_set_self (l : List Nat) (i v : Nat) (h : i < l.length) :
    (l.set i v).getD i 0 = v := by
  rw [List.getD_eq_getElem?_getD, List.getElem?_set]
  simp [h]

theorem getD_mem_lt (l : List Nat) (j bound : Nat) (hj : j < l.length)
    (hb : ∀ b ∈ l, b < bound) : l.getD j 0 < bound := by
  rw [List.getD_eq_getElem l 0 hj]
  exact hb _ (List.getElem_mem hj)

/-- Reassembling the four little-endian bytes of a 32-bit value gives the
value back. -/
theorem le32_recompose (x : Nat) (hx : x < 2 ^ 32) :
    (x &&& 255) ||| ((x >>> 8) &&& 255) <<< 8 ||| ((x >>> 16) &&& 255) <<< 16 |||
      ((x >>> 24) &&& 255) <<< 24 = x := by
  rw [and_255_eq_mod, and_255_eq_mod, and_255_eq_mod, and_255_eq_mod,
    Nat.shiftRight_eq_div_pow, Nat.shiftRight_eq_div_pow, Nat.shiftRight_eq_div_pow]
  rw [lor_shl_eq_add _ _ 8 (by omega)]
  rw [lor_shl_eq_add _ _ 16 (by
    have h1 : x % 256 < 256 := Nat.mod_lt _ (by omega)
    have h2 : x / 2 ^ 8 % 256 < 256 := Nat.mod_lt _ (by omega)
    norm_num
    omega)]
  rw [lor_shl_eq_add _ _ 24 (by
    have h1 : x % 256 < 256 := Nat.mod_lt _ (by omega)
    have h2 : x / 2 ^ 8 % 256 < 256 := Nat.mod_lt _ (by omega)
    have h3 : x / 2 ^ 16 % 256 < 256 := Nat.mod_lt _ (by omega)
    norm_num
    omega)]
  norm_num
  omega

/-! ## Claim C2: `evaluate_error` is constant-Block -/

/-- C2: for every parse error and session context, `evaluate_error`
returns exactly `{kBlock, "parse-error", "Parser error: <msg>"}`; in
particular it never returns Allow.  Totality of the Lean function models
the `noexcept` catch-all of the C++ body. -/
theorem evaluate_error_constant_block (e : ParseError) (s : SessionContext) :
    evaluate_error e s =
      ⟨.kBlock, "parse-error", "Parser error: " ++ e.message⟩ ∧
    (evaluate_error e s).action ≠ .kAllow := by
  refine ⟨rfl, ?_⟩
  simp [evaluate_error]

/-! ## Claim C4: injection detector fail-close -/

/-- C4: if the effective compiled pattern list after construction is empty
(empty input list, or every pattern failed to compile), every subsequent
`check` returns `detected = true` with reason "no valid patterns loaded". -/
theorem injection_fail_close (env : PolicyEnv) (patterns : List String)
    (sql : String)
    (h : (mkInjectionDetector env patterns).compiled_patterns = []) :
    injectionCheck env (mkInjectionDetector env patterns) sql =
      ⟨true, "", "no valid patterns loaded"⟩ := by
  have hf : patterns.filter env.regexValid = [] := h
  simp [injectionCheck, mkInjectionDetector, hf]

/-- Witness for C4 at two concrete inputs: the empty pattern list, and a
non-empty list on an oracle where no pattern compiles. -/
theorem injection_fail_close_witness :
    injectionCheck allInvalidEnv (mkInjectionDetector allInvalidEnv []) "SELECT 1" =
      ⟨true, "", "no valid patterns loaded"⟩ ∧
    injectionCheck allInvalidEnv
        (mkInjectionDetector allInvalidEnv ["UNION\\s+SELECT", "SLEEP\\s*\\("])
        "SELECT id FROM users" =
      ⟨true, "", "no valid patterns loaded"⟩ :=
  ⟨injection_fail_close allInvalidEnv [] "SELECT 1" rfl,
   injection_fail_close allInvalidEnv ["UNION\\s+SELECT", "SLEEP\\s*\\("]
     "SELECT id FROM users" rfl⟩

/-! ## Claim C3: trailing semicolon (code bug)

The claim (and the repository's own DON-39 tests,
`TrailingSemicolonAllowed_*` in tests/test_sql_parser.cpp) say that a
semicolon followed only by whitespace parses successfully, while a
semicolon followed by non-whitespace fails with InvalidSql.  The code's
`has_semicolon_outside_string_or_comment` returns true for ANY semicolon
reached in Normal state, with no look-ahead at what follows, so
`SqlParser::parse` rejects `"SELECT 1;  \n"` — the very input the
specification names as succeeding.  The theorem below evaluates the
embedded parser at that failing input. -/

/-- C3 (code bug evidence): the classifier rejects `"SELECT 1;  \n"` with
`kInvalidSql`, where the specification and the repository's DON-39 tests
require success with command `Select` and no tables. -/
theorem trailing_semicolon_rejected :
    sqlParse noTablesEnv "SELECT 1;  \n" =
      .error ⟨.kInvalidSql,
        "Multi-statement SQL detected: semicolon outside string or comment",
        "SELECT 1;  \n"⟩ := by
  rfl

/-! ## Claim C6: procedure name convention for CALL (corrected)

The claim says the classifier stores the procedure name as the first
element of `query.tables`.  It does not: the `switch` in `SqlParser::parse`
has no table-extraction anchor for `kCall` (the `kCall` case falls through
to the empty default), so a classified CALL always carries an empty table
list, and the evaluator's whitelist check therefore runs on the empty
string.  The evaluator half of the claim is accurate and is proved below
against `procedureCheck`, the embedded step 10 of `PolicyEngine::evaluate`. -/

/-- C6 counterexample: classifying `CALL sp_get_user(1)` yields command
`kCall` with `tables = []` — there is no first element carrying the
procedure name `sp_get_user` as the claim requires. -/
theorem call_classification_has_no_tables :
    sqlParse noTablesEnv "CALL sp_get_user(1)" =
      .ok ⟨.kCall, [], "CALL sp_get_user(1)", false⟩ := by
  rfl

/-- C6 (amended): every successfully classified CALL has an empty
`tables` list (for any extraction oracle), and the evaluator's procedure
control applies the whitelist/blacklist to the first element of
`query.tables` — hence, for parser-produced queries, to the empty string:
whitelist mode blocks with "procedure-whitelist" when that name is not
listed, blacklist mode blocks with "procedure-blacklist" when it is. -/
theorem call_tables_empty_and_procedure_control
    (ext : ParserEnv) (sql : String) (q : ParsedQuery)
    (pc : ProcedureControl) (query : ParsedQuery) (cmdStr : String) :
    (sqlParse ext sql = .ok q → q.command = .kCall → q.tables = []) ∧
    (query.command = .kCall → pc.mode = "whitelist" →
      pc.whitelist.any (fun wl => iequals ((query.tables.head?).getD "") wl) = false →
      procedureCheck pc query cmdStr =
        some ⟨.kBlock, "procedure-whitelist",
          "Procedure '" ++ (query.tables.head?).getD "" ++ "' not in whitelist"⟩) ∧
    (query.command = .kCall → pc.mode = "blacklist" →
      pc.whitelist.any (fun bl => iequals ((query.tables.head?).getD "") bl) = true →
      procedureCheck pc query cmdStr =
        some ⟨.kBlock, "procedure-blacklist",
          "Procedure '" ++ (query.tables.head?).getD "" ++ "' is blacklisted"⟩) := by
  refine ⟨?_, ?_, ?_⟩
  · intro hok hcall
    simp only [sqlParse] at hok
    split at hok
    · simp at hok
    · split at hok
      · simp at hok
      · split at hok
        · simp at hok
        · rw [Except.ok.injEq] at hok
          subst hok
          simp only at hcall ⊢
          rw [hcall]
  · intro hcall hmode hnotin
    simp [procedureCheck, hcall, hmode, hnotin]
  · intro hcall hmode hisin
    simp [procedureCheck, hcall, hmode, hisin]

/-- Witness for C6 (amended) at concrete inputs: the classified CALL from
the counterexample, a whitelist miss and a blacklist hit. -/
theorem call_tables_empty_and_procedure_control_witness :
    (⟨.kCall, [], "CALL sp_get_user(1)", false⟩ : ParsedQuery).tables = [] ∧
    procedureCheck ⟨"whitelist", ["sp_get_user"], true, true⟩
        ⟨.kCall, [], "CALL sp_admin()", false⟩ "CALL" =
      some ⟨.kBlock, "procedure-whitelist", "Procedure '' not in whitelist"⟩ ∧
    procedureCheck ⟨"blacklist", ["sp_dangerous"], true, true⟩
        ⟨.kCall, ["sp_dangerous"], "CALL sp_dangerous()", false⟩ "CALL" =
      some ⟨.kBlock, "procedure-blacklist", "Procedure 'sp_dangerous' is blacklisted"⟩ := by
  refine ⟨?_, ?_, ?_⟩
  · exact (call_tables_empty_and_procedure_control noTablesEnv "CALL sp_get_user(1)"
      ⟨.kCall, [], "CALL sp_get_user(1)", false⟩ ⟨"whitelist", [], true, true⟩
      ⟨.kCall, [], "", false⟩ "CALL").1 (by rfl) rfl
  · exact (call_tables_empty_and_procedure_control noTablesEnv ""
      ⟨.kCall, [], "", false⟩ ⟨"whitelist", ["sp_get_user"], true, true⟩
      ⟨.kCall, [], "CALL sp_admin()", false⟩ "CALL").2.1 rfl rfl (by rfl)
  · exact (call_tables_empty_and_procedure_control noTablesEnv ""
      ⟨.kCall, [], "", false⟩ ⟨"blacklist", ["sp_dangerous"], true, true⟩
      ⟨.kCall, ["sp_dangerous"], "CALL sp_dangerous()", false⟩ "CALL").2.2 rfl rfl (by rfl)

/-! ## Claim C10: empty COM_QUERY takes the fail-close path -/

/-- C10: a COM_QUERY packet whose payload is exactly the command byte
`0x03` extracts successfully with an empty query string (no error); the
classifier rejects the empty string — like every whitespace-only input —
with `kInvalidSql` ("Empty SQL input"), so the session routes it into
`evaluate_error`, which blocks with "parse-error"; it is never classified
or allowed. -/
theorem empty_com_query_fail_close (seq : Nat) (tpe : PacketType)
    (ext : ParserEnv) (s : String) (e : ParseError) (sess : SessionContext)
    (hws : ∀ c ∈ s.data, isCppSpace c = true) :
    extract_command ⟨seq, [0x03], tpe⟩ = .ok ⟨.kComQuery, "", seq⟩ ∧
    sqlParse ext s = .error ⟨.kInvalidSql, "Empty SQL input", s⟩ ∧
    (evaluate_error e sess).action = .kBlock ∧
    (evaluate_error e sess).matched_rule = "parse-error" := by
  refine ⟨rfl, ?_, rfl, rfl⟩
  have htrim : cppTrim s.data = [] := by
    unfold cppTrim
    rw [List.dropWhile_eq_nil_iff.mpr hws]
    simp
  simp [sqlParse, htrim]

/-- Witness for C10 at the empty string and a whitespace-only string. -/
theorem empty_com_query_fail_close_witness :
    (extract_command ⟨0, [0x03], .kComQuery⟩ = .ok ⟨.kComQuery, "", 0⟩ ∧
      sqlParse noTablesEnv "" = .error ⟨.kInvalidSql, "Empty SQL input", ""⟩ ∧
      (evaluate_error ⟨.kInvalidSql, "Empty SQL input", ""⟩ scenarioSession).action = .kBlock ∧
      (evaluate_error ⟨.kInvalidSql, "Empty SQL input", ""⟩ scenarioSession).matched_rule =
        "parse-error") ∧
    sqlParse noTablesEnv " \t\n" = .error ⟨.kInvalidSql, "Empty SQL input", " \t\n"⟩ :=
  ⟨empty_com_query_fail_close 0 .kComQuery noTablesEnv ""
      ⟨.kInvalidSql, "Empty SQL input", ""⟩ scenarioSession (by decide),
   (empty_com_query_fail_close 0 .kComQuery noTablesEnv " \t\n"
      ⟨.kInvalidSql, "Empty SQL input", ""⟩ scenarioSession (by decide)).2.1⟩

/-! ## Claim C7: handshake loop cap, nested AuthSwitch, terminal states -/

/-- C7: with `round_trips ≥ 10` (the `kMaxRoundTrips` cap), a further auth
round-trip — an AuthMoreData in a post-AuthSwitch or MoreData server state,
or the raw RSA-key push (Unknown) in the MoreData state — fails with
`kMalformedPacket`; an AuthSwitch received in a post-AuthSwitch or MoreData
state fails with `kMalformedPacket` regardless of the counter; and calling
the transition function in a terminal state (`kDone`, `kFailed`) returns
`kInternalError`. -/
theorem handshake_loop_cap_and_terminal (payload : List Nat) (rt : Int) :
    (classify_auth_response payload = .kAuthMoreData → rt ≥ 10 →
      process_handshake_packet .kWaitServerAuthSwitch payload rt =
        .error ⟨.kMalformedPacket, "handshake auth loop exceeded max round trips",
          "round_trips=" ++ toString rt⟩) ∧
    ((classify_auth_response payload = .kAuthMoreData ∨
        classify_auth_response payload = .kUnknown) → rt ≥ 10 →
      process_handshake_packet .kWaitServerMoreData payload rt =
        .error ⟨.kMalformedPacket, "handshake auth loop exceeded max round trips",
          "round_trips=" ++ toString rt⟩) ∧
    (classify_auth_response payload = .kAuthSwitch →
      process_handshake_packet .kWaitServerAuthSwitch payload rt =
        .error ⟨.kMalformedPacket, "unexpected AuthSwitchRequest after AuthSwitch", ""⟩ ∧
      process_handshake_packet .kWaitServerMoreData payload rt =
        .error ⟨.kMalformedPacket, "unexpected AuthSwitchRequest after AuthMoreData", ""⟩) ∧
    (process_handshake_packet .kDone payload rt =
      .error ⟨.kInternalError, "process_handshake_packet called in terminal state",
        "state=7"⟩ ∧
     process_handshake_packet .kFailed payload rt =
      .error ⟨.kInternalError, "process_handshake_packet called in terminal state",
        "state=8"⟩) := by
  refine ⟨?_, ?_, ?_, rfl, rfl⟩
  · intro hc hrt
    simp [process_handshake_packet, hc, kMaxRoundTrips, hrt]
  · rintro (hc | hc) hrt <;>
      simp [process_handshake_packet, hc, kMaxRoundTrips, hrt]
  · intro hc
    exact ⟨by simp [process_handshake_packet, hc],
           by simp [process_handshake_packet, hc]⟩

/-- Witness for C7 at concrete packets: an AuthMoreData payload at the
cap, the raw RSA push at the cap, and a nine-byte AuthSwitchRequest. -/
theorem handshake_loop_cap_and_terminal_witness :
    process_handshake_packet .kWaitServerAuthSwitch [0x01, 0x04] 10 =
      .error ⟨.kMalformedPacket, "handshake auth loop exceeded max round trips",
        "round_trips=10"⟩ ∧
    process_handshake_packet .kWaitServerMoreData [0x2D] 10 =
      .error ⟨.kMalformedPacket, "handshake auth loop exceeded max round trips",
        "round_trips=10"⟩ ∧
    process_handshake_packet .kWaitServerMoreData
        [0xFE, 0x63, 0x61, 0x63, 0x68, 0x69, 0x6E, 0x67, 0x00] 3 =
      .error ⟨.kMalformedPacket, "unexpected AuthSwitchRequest after AuthMoreData", ""⟩ ∧
    process_handshake_packet .kDone [] 0 =
      .error ⟨.kInternalError, "process_handshake_packet called in terminal state",
        "state=7"⟩ :=
  ⟨(handshake_loop_cap_and_terminal [0x01, 0x04] 10).1 rfl (by norm_num),
   (handshake_loop_cap_and_terminal [0x2D] 10).2.1 (Or.inr rfl) (by norm_num),
   ((handshake_loop_cap_and_terminal
      [0xFE, 0x63, 0x61, 0x63, 0x68, 0x69, 0x6E, 0x67, 0x00] 3).2.2.1 rfl).2,
   (handshake_loop_cap_and_terminal [] 0).2.2.2.1⟩

/-! ## Claim C5: packet round trip (corrected)

`MysqlPacket::parse` only requires `data.size() >= 4 + length` and ignores
any trailing bytes beyond the declared payload, so `serialize (parse data)`
reproduces only the first `4 + length` bytes of `data`; for a buffer with
trailing garbage the round trip is not the identity.  (The payload-length
side condition of the claim is vacuous: a 3-byte length field never exceeds
`0xFFFFFF`.) -/

/-- C5 counterexample: `parse` accepts `[0,0,0,0,0xAA]` (declared length 0
plus one trailing byte), and serializing the result gives `[0,0,0,0]`,
not the original buffer. -/
theorem parse_tolerates_trailing_bytes :
    MysqlPacket.parse [0, 0, 0, 0, 0xAA] = .ok ⟨0, [], .kUnknown⟩ ∧
    MysqlPacket.serialize ⟨0, [], .kUnknown⟩ = [0, 0, 0, 0] ∧
    ([0, 0, 0, 0] : List Nat) ≠ [0, 0, 0, 0, 0xAA] := by
  exact ⟨rfl, rfl, by simp⟩

/-- C5 (amended): for every byte buffer on which `parse` succeeds,
`serialize (parse data)` equals the first `4 + payload length` bytes of
`data`; in particular the round trip is the identity exactly when `data`
carries no bytes beyond the declared payload. -/
theorem mysql_parse_serialize (data : List Nat) (pkt : MysqlPacket)
    (hb : ∀ b ∈ data, b < 256) (hok : MysqlPacket.parse data = .ok pkt) :
    pkt.serialize = data.take (4 + pkt.payload.length) := by
  rcases data with _ | ⟨d0, data⟩
  · simp [MysqlPacket.parse] at hok
  rcases data with _ | ⟨d1, data⟩
  · simp [MysqlPacket.parse] at hok
  rcases data with _ | ⟨d2, data⟩
  · simp [MysqlPacket.parse] at hok
  rcases data with _ | ⟨d3, rest⟩
  · simp [MysqlPacket.parse] at hok
  have hd0 : d0 < 256 := hb d0 (by simp)
  have hd1 : d1 < 256 := hb d1 (by simp)
  have hd2 : d2 < 256 := hb d2 (by simp)
  have hadd : d0 ||| d1 <<< 8 ||| d2 <<< 16 = d0 + d1 * 256 + d2 * 65536 := by
    rw [lor_shl_eq_add d0 d1 8 (by norm_num; exact hd0)]
    rw [lor_shl_eq_add _ d2 16 (by norm_num; omega)]
    norm_num
  simp only [MysqlPacket.parse, List.getD_cons_zero, List.getD_cons_succ,
    List.length_cons, List.drop_succ_cons, List.drop_zero] at hok
  rw [if_neg (by omega)] at hok
  split at hok
  · simp at hok
  · rename_i hcond
    rw [hadd] at hcond
    rw [Except.ok.injEq] at hok
    subst hok
    simp only [MysqlPacket.serialize]
    have hlen2 : (List.take (d0 ||| d1 <<< 8 ||| d2 <<< 16) rest).length =
        d0 ||| d1 <<< 8 ||| d2 <<< 16 := by
      rw [List.length_take]
      rw [hadd]
      omega
    rw [hlen2]
    rw [if_neg (by rw [hadd]; omega)]
    have h4 : 4 + (d0 ||| d1 <<< 8 ||| d2 <<< 16) =
        (d0 ||| d1 <<< 8 ||| d2 <<< 16) + 1 + 1 + 1 + 1 := by omega
    rw [h4]
    simp only [List.take_succ_cons, List.cons.injEq]
    refine ⟨?_, ?_, ?_⟩
    · rw [and_255_eq_mod, hadd]; omega
    · rw [Nat.shiftRight_eq_div_pow, and_255_eq_mod, hadd]; norm_num; omega
    · rw [Nat.shiftRight_eq_div_pow, and_255_eq_mod, hadd]; norm_num; omega

/-- Witness for C5 (amended) at a concrete exact-length buffer: the round
trip is the identity. -/
theorem mysql_parse_serialize_witness :
    MysqlPacket.serialize ⟨7, [0xAB, 0xCD], .kUnknown⟩ = [2, 0, 0, 7, 0xAB, 0xCD] := by
  have h := mysql_parse_serialize [2, 0, 0, 7, 0xAB, 0xCD]
    ⟨7, [0xAB, 0xCD], .kUnknown⟩ (by decide) rfl
  simpa using h

/-! ## Claim C9: CIDR matching -/

/-- C9: `ip_in_cidr` returns true exactly when the CIDR splits at a `/`,
the prefix parses completely to `0 ≤ P ≤ 32`, both addresses parse as
IPv4 (so IPv6 or any malformed input yields false, fail-close), and the
two 32-bit big-endian addresses agree under `cidrMask P`
(`~0 << (32 − P)`, with `P = 0` giving the all-match mask `0`). -/
theorem ip_in_cidr_masked_equality (ip cidr : String) :
    ip_in_cidr ip cidr = true ↔
      ∃ slashPos v idx ipInt netInt,
        cidr.data.findIdx? (· = '/') = some slashPos ∧
        cppStoi (cidr.data.drop (slashPos + 1)) = some (v, idx) ∧
        idx = (cidr.data.drop (slashPos + 1)).length ∧
        0 ≤ v ∧ v ≤ 32 ∧
        inetPton4 ip = some ipInt ∧
        inetPton4 (String.mk (cidr.data.take slashPos)) = some netInt ∧
        ipInt &&& cidrMask v.toNat = netInt &&& cidrMask v.toNat := by
  simp only [ip_in_cidr]
  split
  · rename_i h1
    simp [h1]
  · rename_i sp h1
    split
    · rename_i h2
      simp [h1, h2]
    · rename_i vi v idx h2
      split
      · rename_i htrue
        simp only [Bool.false_eq_true, false_iff]
        simp only [decide_eq_true_eq, Bool.or_eq_true] at htrue
        rintro ⟨sp2, v2, idx2, ipI, netI, hA, hB, hC, hD, hE, -, -, -⟩
        rw [h1, Option.some.injEq] at hA
        subst hA
        rw [h2, Option.some.injEq, Prod.mk.injEq] at hB
        obtain ⟨rfl, rfl⟩ := hB
        rcases htrue with (h | h) | h
        · exact h hC
        · omega
        · omega
      · rename_i hfalse
        simp only [decide_eq_true_eq, Bool.or_eq_true, not_or] at hfalse
        obtain ⟨⟨hidx, hv0⟩, hv32⟩ := hfalse
        split
        · rename_i h3
          simp only [Bool.false_eq_true, false_iff]
          rintro ⟨sp2, v2, idx2, ipI, netI, hA, -, -, -, -, hF, -, -⟩
          rw [h3] at hF
          exact Option.noConfusion hF
        · rename_i ipI h3
          split
          · rename_i h4
            simp only [Bool.false_eq_true, false_iff]
            rintro ⟨sp2, v2, idx2, ipI2, netI, hA, hB, -, -, -, -, hG, -⟩
            rw [h1, Option.some.injEq] at hA
            subst hA
            rw [h4] at hG
            exact Option.noConfusion hG
          · rename_i netI h4
            simp only [beq_iff_eq]
            constructor
            · intro heq
              refine ⟨sp, v, idx, ipI, netI, h1, h2, ?_, ?_, ?_, h3, h4, heq⟩
              · omega
              · omega
              · omega
            · rintro ⟨sp2, v2, idx2, ipI2, netI2, hA, hB, -, -, -, hF, hG, hH⟩
              rw [h1, Option.some.injEq] at hA
              subst hA
              rw [h2, Option.some.injEq, Prod.mk.injEq] at hB
              obtain ⟨rfl, rfl⟩ := hB
              rw [h3, Option.some.injEq] at hF
              subst hF
              rw [h4, Option.some.injEq] at hG
              subst hG
              exact hH

/-! ## Claim C1: evaluator totality and the shape of Allow -/

theorem block_result_conj (r : PolicyResult) (hact : r.action = .kBlock)
    (hmr : r.matched_rule ≠ "") (P : Prop) :
    r.matched_rule ≠ "" ∧ (r.action = .kAllow → P) :=
  ⟨hmr, fun hA => absurd (hact.symm.trans hA) (by simp)⟩

theorem sqlRulesCheck_some (env : PolicyEnv) (rules : SqlRule)
    (cmdStr rawSql : String) (r : PolicyResult)
    (h : sqlRulesCheck env rules cmdStr rawSql = some r) :
    r.action = .kBlock ∧ r.matched_rule ≠ "" := by
  simp only [sqlRulesCheck] at h
  split at h
  · rw [Option.some.injEq] at h
    subst h
    exact ⟨rfl, by simp⟩
  · split at h
    · rw [Option.some.injEq] at h
      subst h
      exact ⟨rfl, by simp⟩
    · exact Option.noConfusion h

theorem timeRestrictionCheck_some (env : PolicyEnv) (rule : AccessRule)
    (session : SessionContext) (r : PolicyResult)
    (h : timeRestrictionCheck env rule session = some r) :
    r.action = .kBlock ∧ r.matched_rule ≠ "" := by
  simp only [timeRestrictionCheck] at h
  split at h
  · exact Option.noConfusion h
  · split at h
    · rw [Option.some.injEq] at h
      subst h
      exact ⟨rfl, by simp⟩
    · split at h
      · exact Option.noConfusion h
      · rw [Option.some.injEq] at h
        subst h
        exact ⟨rfl, by simp⟩

theorem tablesCheck_some (rule : AccessRule) (query : ParsedQuery)
    (r : PolicyResult) (h : tablesCheck rule query = some r) :
    r.action = .kBlock ∧ r.matched_rule ≠ "" := by
  simp only [tablesCheck] at h
  split at h
  · split at h
    · rw [Option.some.injEq] at h
      subst h
      exact ⟨rfl, by simp⟩
    · exact Option.noConfusion h
  · exact Option.noConfusion h

theorem operationsCheck_some (rule : AccessRule) (cmdStr : String)
    (r : PolicyResult) (h : operationsCheck rule cmdStr = some r) :
    r.action = .kBlock ∧ r.matched_rule ≠ "" := by
  simp only [operationsCheck] at h
  split at h
  · split at h
    · split at h
      · rw [Option.some.injEq] at h
        subst h
        exact ⟨rfl, by simp⟩
      · exact Option.noConfusion h
    · exact Option.noConfusion h
  · exact Option.noConfusion h

theorem procedureCheck_some (pc : ProcedureControl) (query : ParsedQuery)
    (cmdStr : String) (r : PolicyResult)
    (h : procedureCheck pc query cmdStr = some r) :
    r.action = .kBlock ∧ r.matched_rule ≠ "" := by
  simp only [procedureCheck] at h
  split at h
  · split at h
    · split at h
      · rw [Option.some.injEq] at h
        subst h
        exact ⟨rfl, by simp⟩
      · exact Option.noConfusion h
    · split at h
      · split at h
        · rw [Option.some.injEq] at h
          subst h
          exact ⟨rfl, by simp⟩
        · exact Option.noConfusion h
      · split at h
        · split at h
          · rw [Option.some.injEq] at h
            subst h
            exact ⟨rfl, by simp⟩
          · exact Option.noConfusion h
        · exact Option.noConfusion h
  · exact Option.noConfusion h

theorem createAlterCheck_some (pc : ProcedureControl) (query : ParsedQuery)
    (cmdStr : String) (r : PolicyResult)
    (h : createAlterCheck pc query cmdStr = some r) :
    r.action = .kBlock ∧ r.matched_rule ≠ "" := by
  simp only [createAlterCheck] at h
  split at h
  · split at h
    · rw [Option.some.injEq] at h
      subst h
      exact ⟨rfl, by simp⟩
    · exact Option.noConfusion h
  · exact Option.noConfusion h

theorem schemaCheck_some (dp : DataProtection) (query : ParsedQuery)
    (r : PolicyResult) (h : schemaCheck dp query = some r) :
    r.action = .kBlock ∧ r.matched_rule ≠ "" := by
  simp only [schemaCheck] at h
  split at h
  · split at h
    · rw [Option.some.injEq] at h
      subst h
      exact ⟨rfl, by simp⟩
    · exact Option.noConfusion h
  · exact Option.noConfusion h

/-- C1: for every oracle, snapshot (including the null snapshot), query
and session, `evaluate` returns a result with a non-empty `matched_rule`;
and the action is Allow only on the happy path that falls through every
block rung, in which case `matched_rule` is `"access-rule:<user>"` for the
user of the first matching access rule. -/
theorem evaluate_total_allow_shape (env : PolicyEnv) (config : Option PolicyConfig)
    (query : ParsedQuery) (session : SessionContext) :
    (evaluate env config query session).matched_rule ≠ "" ∧
    ((evaluate env config query session).action = .kAllow →
      ∃ cfg rule, config = some cfg ∧
        findAccessRule session cfg.access_control = some rule ∧
        (evaluate env config query session).matched_rule =
          "access-rule:" ++ rule.user) := by
  cases config with
  | none =>
    exact block_result_conj _ rfl (by simp [evaluate]) _
  | some cfg =>
    simp only [evaluate]
    split
    · exact block_result_conj _ rfl (by simp) _
    · split
      · rename_i r heq
        obtain ⟨hact, hmr⟩ := sqlRulesCheck_some _ _ _ _ _ heq
        exact block_result_conj _ hact hmr _
      · split
        · exact block_result_conj _ rfl (by simp) _
        · rename_i rule hrule
          split
          · exact block_result_conj _ rfl (by simp) _
          · split
            · rename_i r heq
              obtain ⟨hact, hmr⟩ := timeRestrictionCheck_some _ _ _ _ heq
              exact block_result_conj _ hact hmr _
            · split
              · rename_i r heq
                obtain ⟨hact, hmr⟩ := tablesCheck_some _ _ _ heq
                exact block_result_conj _ hact hmr _
              · split
                · rename_i r heq
                  obtain ⟨hact, hmr⟩ := operationsCheck_some _ _ _ heq
                  exact block_result_conj _ hact hmr _
                · split
                  · rename_i r heq
                    obtain ⟨hact, hmr⟩ := procedureCheck_some _ _ _ _ heq
                    exact block_result_conj _ hact hmr _
                  · split
                    · rename_i r heq
                      obtain ⟨hact, hmr⟩ := createAlterCheck_some _ _ _ _ heq
                      exact block_result_conj _ hact hmr _
                    · split
                      · rename_i r heq
                        obtain ⟨hact, hmr⟩ := schemaCheck_some _ _ _ heq
                        exact block_result_conj _ hact hmr _
                      · refine ⟨?_, fun _ => ⟨cfg, rule, rfl, hrule, rfl⟩⟩
                        intro hemp
                        have hemp2 : "access-rule:" ++ rule.user = "" := hemp
                        have hlen := congrArg String.length hemp2
                        rw [String.length_append] at hlen
                        have h12 : ("access-rule:" : String).length = 12 := rfl
                        have h0 : ("" : String).length = 0 := rfl
                        omega

/-- Witness for C1 at scenario 1 of the specification: the happy path
produces Allow with `matched_rule = "access-rule:testuser"`. -/
theorem evaluate_total_allow_shape_witness :
    (evaluate quietEnv (some scenarioConfig) scenarioQuery scenarioSession).matched_rule ≠ "" ∧
    ∃ cfg rule, (some scenarioConfig : Option PolicyConfig) = some cfg ∧
      findAccessRule scenarioSession cfg.access_control = some rule ∧
      (evaluate quietEnv (some scenarioConfig) scenarioQuery scenarioSession).matched_rule =
        "access-rule:" ++ rule.user :=
  ⟨(evaluate_total_allow_shape quietEnv (some scenarioConfig) scenarioQuery
      scenarioSession).1,
   (evaluate_total_allow_shape quietEnv (some scenarioConfig) scenarioQuery
      scenarioSession).2 rfl⟩


/-! ## Claim C8: capability stripping -/

theorem and_F7_testBit (b t : Nat) (hb : b < 256) :
    (b &&& 0xF7).testBit t = (b.testBit t && !(t = 3)) := by
  rw [Nat.testBit_and]
  by_cases ht : t < 8
  · have hm : (0xF7 : Nat).testBit t = !(t = 3) := by interval_cases t <;> decide
    rw [hm]
  · have h8 : (2 : Nat) ^ 8 ≤ 2 ^ t := Nat.pow_le_pow_right (by omega) (by omega)
    have hb2 : b < 2 ^ t := lt_of_lt_of_le (by norm_num; exact hb) h8
    have hm2 : (0xF7 : Nat) < 2 ^ t := lt_of_lt_of_le (by norm_num) h8
    simp [Nat.testBit_lt_two_pow hb2, Nat.testBit_lt_two_pow hm2]

theorem and_F6_testBit (b t : Nat) (hb : b < 256) :
    (b &&& 0xF6).testBit t = (b.testBit t && !(t = 0) && !(t = 3)) := by
  rw [Nat.testBit_and]
  by_cases ht : t < 8
  · have hm : (0xF6 : Nat).testBit t = (!(t = 0) && !(t = 3)) := by
      interval_cases t <;> decide
    rw [hm, Bool.and_assoc]
  · have h8 : (2 : Nat) ^ 8 ≤ 2 ^ t := Nat.pow_le_pow_right (by omega) (by omega)
    have hb2 : b < 2 ^ t := lt_of_lt_of_le (by norm_num; exact hb) h8
    have hm2 : (0xF6 : Nat) < 2 ^ t := lt_of_lt_of_le (by norm_num) h8
    simp [Nat.testBit_lt_two_pow hb2, Nat.testBit_lt_two_pow hm2]

theorem serialize_length (pkt : MysqlPacket) (hlen : pkt.payload.length ≤ 0xFFFFFF) :
    pkt.serialize.length = 4 + pkt.payload.length := by
  simp only [MysqlPacket.serialize]
  rw [if_neg (by omega)]
  simp only [List.length_cons]
  omega

theorem serialize_getD_payload (pkt : MysqlPacket) (j : Nat)
    (hlen : pkt.payload.length ≤ 0xFFFFFF) :
    pkt.serialize.getD (4 + j) 0 = pkt.payload.getD j 0 := by
  simp only [MysqlPacket.serialize]
  rw [if_neg (by omega)]
  have h4 : 4 + j = j + 1 + 1 + 1 + 1 := by omega
  rw [h4]
  simp [List.getD_cons_succ]

theorem walkGreeting_bound (payload : List Nat) (pos : Nat)
    (h : walkGreeting payload = some pos) : pos + 7 ≤ payload.length := by
  simp only [walkGreeting] at h
  split at h
  · exact Option.noConfusion h
  · split at h
    · exact Option.noConfusion h
    · split at h
      · exact Option.noConfusion h
      · rename_i hcond
        rw [Option.some.injEq] at h
        omega

theorem set4_getD_chain (bs : List Nat) (v4 v5 v6 v7 : Nat) (h : 8 ≤ bs.length) :
    ((((bs.set 4 v4).set 5 v5).set 6 v6).set 7 v7).getD 4 0 = v4 ∧
    ((((bs.set 4 v4).set 5 v5).set 6 v6).set 7 v7).getD 5 0 = v5 ∧
    ((((bs.set 4 v4).set 5 v5).set 6 v6).set 7 v7).getD 6 0 = v6 ∧
    ((((bs.set 4 v4).set 5 v5).set 6 v6).set 7 v7).getD 7 0 = v7 := by
  refine ⟨?_, ?_, ?_, ?_⟩
  · rw [getD_set_ne _ _ _ _ (by omega), getD_set_ne _ _ _ _ (by omega),
      getD_set_ne _ _ _ _ (by omega), getD_set_self _ _ _ (by omega)]
  · rw [getD_set_ne _ _ _ _ (by omega), getD_set_ne _ _ _ _ (by omega),
      getD_set_self _ _ _ (by simp only [List.length_set]; omega)]
  · rw [getD_set_ne _ _ _ _ (by omega),
      getD_set_self _ _ _ (by simp only [List.length_set]; omega)]
  · rw [getD_set_self _ _ _ (by simp only [List.length_set]; omega)]

/-- C8: (server side) when the Handshake-v10 layout walk succeeds at
capability offset `pos`, stripping rewrites exactly two bytes of the
serialized greeting — the high byte of `capability_flags_1` (serialized
index `4 + pos + 1`) is ANDed with `0xF7`, clearing precisely bit 3 of
that byte, i.e. bit 11 of the 16-bit field (`CLIENT_SSL`), and the high
byte of `capability_flags_2` (serialized index `4 + pos + 6`) is ANDed
with `0xF6`, clearing precisely bits 0 and 3 of that byte, i.e. bits 24
(`CLIENT_DEPRECATE_EOF`) and 27 (`CLIENT_QUERY_ATTRIBUTES`) of the full
32-bit flags — and every other byte is unchanged; when the walk fails the
original serialized bytes are returned verbatim; (client side) the
HandshakeResponse gets the same three bits cleared out of the 32-bit
little-endian capability field in its first four payload bytes, all other
bytes unchanged. -/
theorem capability_stripping (pkt : MysqlPacket) (pos : Nat)
    (hlen : pkt.payload.length ≤ 0xFFFFFF)
    (hb : ∀ b ∈ pkt.payload, b < 256) :
    (walkGreeting pkt.payload = some pos →
      (strip_unsupported_capabilities pkt).length = pkt.serialize.length ∧
      (∀ k, k ≠ 4 + pos + 1 → k ≠ 4 + pos + 6 →
        (strip_unsupported_capabilities pkt).getD k 0 = pkt.serialize.getD k 0) ∧
      (strip_unsupported_capabilities pkt).getD (4 + pos + 1) 0 =
        pkt.serialize.getD (4 + pos + 1) 0 &&& 0xF7 ∧
      (strip_unsupported_capabilities pkt).getD (4 + pos + 6) 0 =
        pkt.serialize.getD (4 + pos + 6) 0 &&& 0xF6 ∧
      (∀ t, ((strip_unsupported_capabilities pkt).getD (4 + pos + 1) 0).testBit t =
        ((pkt.serialize.getD (4 + pos + 1) 0).testBit t && !(t = 3))) ∧
      (∀ t, ((strip_unsupported_capabilities pkt).getD (4 + pos + 6) 0).testBit t =
        ((pkt.serialize.getD (4 + pos + 6) 0).testBit t && !(t = 0) && !(t = 3)))) ∧
    (walkGreeting pkt.payload = none →
      strip_unsupported_capabilities pkt = pkt.serialize) ∧
    (4 ≤ pkt.payload.length →
      (strip_unsupported_client_capabilities pkt).length = pkt.serialize.length ∧
      (∀ k, k < 4 ∨ 8 ≤ k →
        (strip_unsupported_client_capabilities pkt).getD k 0 =
          pkt.serialize.getD k 0) ∧
      ((strip_unsupported_client_capabilities pkt).getD 4 0 |||
        (strip_unsupported_client_capabilities pkt).getD 5 0 <<< 8 |||
        (strip_unsupported_client_capabilities pkt).getD 6 0 <<< 16 |||
        (strip_unsupported_client_capabilities pkt).getD 7 0 <<< 24) =
        (pkt.serialize.getD 4 0 ||| pkt.serialize.getD 5 0 <<< 8 |||
          pkt.serialize.getD 6 0 <<< 16 ||| pkt.serialize.getD 7 0 <<< 24) &&&
          (0xFFFFFFFF ^^^ (2 ^ 11 ||| 2 ^ 24 ||| 2 ^ 27))) := by
  have hser := serialize_length pkt hlen
  refine ⟨?_, ?_, ?_⟩
  · intro hwalk
    have hbound := walkGreeting_bound pkt.payload pos hwalk
    have hik : 4 + pos + 1 < pkt.serialize.length := by omega
    have hik2 : 4 + pos + 6 < pkt.serialize.length := by omega
    have hbyte1 : pkt.serialize.getD (4 + pos + 1) 0 < 256 := by
      have ha : 4 + pos + 1 = 4 + (pos + 1) := by omega
      rw [ha, serialize_getD_payload pkt (pos + 1) hlen]
      exact getD_mem_lt _ _ _ (by omega) hb
    have hbyte2 : pkt.serialize.getD (4 + pos + 6) 0 < 256 := by
      have ha : 4 + pos + 6 = 4 + (pos + 6) := by omega
      rw [ha, serialize_getD_payload pkt (pos + 6) hlen]
      exact getD_mem_lt _ _ _ (by omega) hb
    have hsel1 : (strip_unsupported_capabilities pkt).getD (4 + pos + 1) 0 =
        pkt.serialize.getD (4 + pos + 1) 0 &&& 0xF7 := by
      simp only [strip_unsupported_capabilities, hwalk]
      rw [if_pos (by simp only [List.length_set]; omega)]
      rw [getD_set_ne _ _ _ _ (by omega), getD_set_self _ _ _ hik]
    have hsel2 : (strip_unsupported_capabilities pkt).getD (4 + pos + 6) 0 =
        pkt.serialize.getD (4 + pos + 6) 0 &&& 0xF6 := by
      simp only [strip_unsupported_capabilities, hwalk]
      rw [if_pos (by simp only [List.length_set]; omega)]
      rw [getD_set_self _ _ _ (by simp only [List.length_set]; omega)]
      rw [getD_set_ne _ _ _ _ (by omega)]
    refine ⟨?_, ?_, hsel1, hsel2, ?_, ?_⟩
    · simp only [strip_unsupported_capabilities, hwalk]
      rw [if_pos (by simp only [List.length_set]; omega)]
      simp [List.length_set]
    · intro k hk1 hk2
      simp only [strip_unsupported_capabilities, hwalk]
      rw [if_pos (by simp only [List.length_set]; omega)]
      rw [getD_set_ne _ _ _ _ (by omega), getD_set_ne _ _ _ _ (by omega)]
    · intro t
      rw [hsel1]
      exact and_F7_testBit _ t hbyte1
    · intro t
      rw [hsel2]
      exact and_F6_testBit _ t hbyte2
  · intro hwalk
    simp only [strip_unsupported_capabilities, hwalk]
  · intro h4
    have hb4 : pkt.serialize.getD 4 0 < 256 := by
      have ha : (4 : Nat) = 4 + 0 := by omega
      rw [ha, serialize_getD_payload pkt 0 hlen]
      exact getD_mem_lt _ _ _ (by omega) hb
    have hb5 : pkt.serialize.getD 5 0 < 256 := by
      have ha : (5 : Nat) = 4 + 1 := by omega
      rw [ha, serialize_getD_payload pkt 1 hlen]
      exact getD_mem_lt _ _ _ (by omega) hb
    have hb6 : pkt.serialize.getD 6 0 < 256 := by
      have ha : (6 : Nat) = 4 + 2 := by omega
      rw [ha, serialize_getD_payload pkt 2 hlen]
      exact getD_mem_lt _ _ _ (by omega) hb
    have hb7 : pkt.serialize.getD 7 0 < 256 := by
      have ha : (7 : Nat) = 4 + 3 := by omega
      rw [ha, serialize_getD_payload pkt 3 hlen]
      exact getD_mem_lt _ _ _ (by omega) hb
    have h2pow : (2 : Nat) ^ 8 = 256 := by norm_num
    have hcap32 : (pkt.serialize.getD 4 0 ||| pkt.serialize.getD 5 0 <<< 8 |||
        pkt.serialize.getD 6 0 <<< 16 ||| pkt.serialize.getD 7 0 <<< 24) < 2 ^ 32 := by
      refine Nat.or_lt_two_pow (Nat.or_lt_two_pow (Nat.or_lt_two_pow ?_ ?_) ?_) ?_
      · omega
      · exact lt_of_lt_of_le
          (Nat.shiftLeft_lt (show pkt.serialize.getD 5 0 < 2 ^ 8 by omega))
          (Nat.pow_le_pow_right (by omega) (by omega))
      · exact lt_of_lt_of_le
          (Nat.shiftLeft_lt (show pkt.serialize.getD 6 0 < 2 ^ 8 by omega))
          (Nat.pow_le_pow_right (by omega) (by omega))
      · exact Nat.shiftLeft_lt (show pkt.serialize.getD 7 0 < 2 ^ 8 by omega)
    have hstripped : (pkt.serialize.getD 4 0 ||| pkt.serialize.getD 5 0 <<< 8 |||
        pkt.serialize.getD 6 0 <<< 16 ||| pkt.serialize.getD 7 0 <<< 24) &&&
        (0xFFFFFFFF ^^^ kUnsupportedMask) < 2 ^ 32 :=
      lt_of_le_of_lt Nat.and_le_left hcap32
    refine ⟨?_, ?_, ?_⟩
    · simp only [strip_unsupported_client_capabilities]
      rw [if_neg (by simp only [Bool.or_eq_true, decide_eq_true_eq, not_or]; omega)]
      simp [List.length_set]
    · intro k hk
      simp only [strip_unsupported_client_capabilities]
      rw [if_neg (by simp only [Bool.or_eq_true, decide_eq_true_eq, not_or]; omega)]
      rw [getD_set_ne _ _ _ _ (by omega), getD_set_ne _ _ _ _ (by omega),
        getD_set_ne _ _ _ _ (by omega), getD_set_ne _ _ _ _ (by omega)]
    · simp only [strip_unsupported_client_capabilities]
      rw [if_neg (by simp only [Bool.or_eq_true, decide_eq_true_eq, not_or]; omega)]
      obtain ⟨g4, g5, g6, g7⟩ := set4_getD_chain pkt.serialize _ _ _ _ (by omega)
      rw [g4, g5, g6, g7]
      have hmask : (0xFFFFFFFF ^^^ kUnsupportedMask : Nat) =
          0xFFFFFFFF ^^^ (2 ^ 11 ||| 2 ^ 24 ||| 2 ^ 27) := by decide
      rw [← hmask]
      exact le32_recompose _ hstripped

/-- Witness for C8 at concrete packets: a greeting with all capability
bits set (serialized bytes 21 and 26 are the two capability high bytes and
lose exactly the masked bits, everything else survives), a too-short
greeting forwarded unchanged, and a client response whose 32-bit flag word
is masked by the three-bit complement. -/
theorem capability_stripping_witness :
    strip_unsupported_capabilities greetingFixture =
      [24, 0, 0, 0, 0x0A, 0x35, 0x00, 0x11, 0x11, 0x11, 0x11, 0x11, 0x11, 0x11,
        0x11, 0x11, 0x11, 0x11, 0x11, 0x11, 0xFF, 0xF7, 0x21, 0x02, 0x00, 0xFF,
        0xF6, 0x00] ∧
    strip_unsupported_capabilities ⟨0, [0x0A], .kHandshake⟩ =
      MysqlPacket.serialize ⟨0, [0x0A], .kHandshake⟩ ∧
    ((strip_unsupported_client_capabilities responseFixture).getD 4 0 |||
      (strip_unsupported_client_capabilities responseFixture).getD 5 0 <<< 8 |||
      (strip_unsupported_client_capabilities responseFixture).getD 6 0 <<< 16 |||
      (strip_unsupported_client_capabilities responseFixture).getD 7 0 <<< 24) =
      (responseFixture.serialize.getD 4 0 ||| responseFixture.serialize.getD 5 0 <<< 8 |||
        responseFixture.serialize.getD 6 0 <<< 16 |||
        responseFixture.serialize.getD 7 0 <<< 24) &&&
        (0xFFFFFFFF ^^^ (2 ^ 11 ||| 2 ^ 24 ||| 2 ^ 27)) := by
  refine ⟨by rfl, ?_, ?_⟩
  · exact (capability_stripping ⟨0, [0x0A], .kHandshake⟩ 0 (by decide) (by decide)).2.1 rfl
  · exact ((capability_stripping responseFixture 0 (by decide) (by decide)).2.2
      (by decide)).2.2

/-! ## Extra closed instantiations -/

/-- Closed instantiation of the C2 theorem at a concrete error. -/
theorem evaluate_error_constant_block_witness :
    evaluate_error ⟨.kInvalidSql, "Multi-statement SQL detected", ""⟩ scenarioSession =
      ⟨.kBlock, "parse-error", "Parser error: Multi-statement SQL detected"⟩ :=
  (evaluate_error_constant_block
    ⟨.kInvalidSql, "Multi-statement SQL detected", ""⟩ scenarioSession).1

/-- Closed instantiation of the C9 characterisation at scenario 1's rule:
`192.168.1.50` lies in `192.168.1.0/24`. -/
theorem ip_in_cidr_masked_equality_witness :
    ip_in_cidr "192.168.1.50" "192.168.1.0/24" = true :=
  (ip_in_cidr_masked_equality "192.168.1.50" "192.168.1.0/24").mpr
    ⟨11, 24, 2, 3232235826, 3232235776, rfl, rfl, rfl, by decide, by decide,
      rfl, rfl, rfl⟩
